import Mathlib

/-!
Verification of the Rust port of cloud-init's `ds-identify` boot-time probe.

Rust strings are modelled as `List Char`; machine-level details (file
system, subprocesses) appear as explicit parameters.  Fallible code
(Rust `unwrap` on `Option::None`, i.e. a runtime abort) is modelled by
`Option`-valued functions returning `none`.

Each model definition names the Rust item it embeds; the relevant files
are `src/tools/ds-identify/src/{util,paths,dss,main}.rs`,
`src/tools/ds-identify/src/sources/list.rs` and
`src/ds-identify/src/info.rs` (the crate keeps two generations of some
modules; where both matter, both are embedded under distinct names).
-/

/-! ## Models of the Rust `str` primitives used by the sources -/

/-- Rust `str::starts_with(char)`. -/
def startsWithChar (s : List Char) (c : Char) : Bool :=
  match s with
  | [] => false
  | a :: _ => a == c

/-- Rust `str::ends_with(char)`: true iff the last character equals `c`. -/
def endsWithChar (s : List Char) (c : Char) : Bool :=
  (s.getLast?).elim false (fun a => a == c)

/-- Rust `str::strip_prefix(char)`. -/
def stripPrefixChar (s : List Char) (c : Char) : Option (List Char) :=
  if startsWithChar s c then some (s.drop 1) else none

/-- Rust `str::strip_suffix(char)`. -/
def stripSuffixChar (s : List Char) (c : Char) : Option (List Char) :=
  if endsWithChar s c then some s.dropLast else none

/-- Rust `str::split_once(char)`: split at the first occurrence of `c`. -/
def splitOnceChar : List Char → Char → Option (List Char × List Char)
  | [], _ => none
  | a :: rest, c =>
    if a == c then some ([], rest)
    else (splitOnceChar rest c).map (fun p => (a :: p.1, p.2))

/-- Rust `str::split_once(&str)`: split at the first occurrence of `pat`. -/
def splitOnceStr : List Char → List Char → Option (List Char × List Char)
  | [], pat => if pat.isPrefixOf ([] : List Char) then some ([], []) else none
  | a :: rest, pat =>
    if pat.isPrefixOf (a :: rest) then some ([], (a :: rest).drop pat.length)
    else (splitOnceStr rest pat).map (fun p => (a :: p.1, p.2))

/-- Helper for `splitOnPred`; accumulates the current piece reversed. -/
def splitOnPredAux (p : Char → Bool) : List Char → List Char → List (List Char)
  | [], acc => [acc.reverse]
  | a :: rest, acc =>
    if p a then acc.reverse :: splitOnPredAux p rest []
    else splitOnPredAux p rest (a :: acc)

/-- Rust `str::split` on a character predicate (keeps empty pieces). -/
def splitOnPred (p : Char → Bool) (s : List Char) : List (List Char) :=
  splitOnPredAux p s []

/-- Rust `str::split(char)`. -/
def splitOnCharR (s : List Char) (c : Char) : List (List Char) :=
  splitOnPred (fun a => a == c) s

/-- Rust `str::split_whitespace`: split on whitespace, dropping empty pieces. -/
def splitWhitespaceR (s : List Char) : List (List Char) :=
  (splitOnPred Char.isWhitespace s).filter (fun piece => !piece.isEmpty)

/-- Rust `str::trim`: strip leading and trailing whitespace. -/
def trimList (s : List Char) : List Char :=
  ((s.dropWhile Char.isWhitespace).reverse.dropWhile Char.isWhitespace).reverse

/-- Rust `str::lines`: split on newline characters; a final trailing line
break produces no extra empty line, and a trailing carriage return is
stripped from each line. -/
def linesOf (s : List Char) : List (List Char) :=
  let parts := splitOnPred (fun c => c == '\n') s
  let parts := if parts.getLast? = some [] then parts.dropLast else parts
  parts.map (fun l => if l.getLast? = some '\r' then l.dropLast else l)

/-- Rust `str::contains(&str)` (substring test): `pat` occurs at some
position of `s`. -/
def containsStr : List Char → List Char → Bool
  | [], pat => pat.isPrefixOf ([] : List Char)
  | a :: rest, pat => pat.isPrefixOf (a :: rest) || containsStr rest pat

/-! ## `src/tools/ds-identify/src/util.rs` -/

/-- The `TICK` constant of `unquote`. -/
def TICK : Char := '\''

/-- The `QUOTE` constant of `unquote`. -/
def QUOTE : Char := '"'

/-- Model of `util::unquote`: remove a matching pair of surrounding quotes.
The Rust body checks `starts_with`/`ends_with` and then calls
`strip_prefix(..).unwrap().strip_suffix(..).unwrap()`; a failing `unwrap`
(a runtime abort) is modelled as `none`. -/
def unquote (val : List Char) : Option (List Char) :=
  if startsWithChar val TICK && endsWithChar val TICK then
    (stripPrefixChar val TICK).bind (fun v => stripSuffixChar v TICK)
  else if startsWithChar val QUOTE && endsWithChar val QUOTE then
    (stripPrefixChar val QUOTE).bind (fun v => stripSuffixChar v QUOTE)
  else
    some val

/-- Model of `util::parse_yaml_array`: strip a leading `[`, then (as the
source is written) strip `]` again as a *prefix*, split on commas, trim
and unquote each item.  `none` propagates an `unquote` abort. -/
def parse_yaml_array (val : List Char) : Option (List (List Char)) :=
  let val1 := (stripPrefixChar val '[').getD val
  let val2 := (stripPrefixChar val1 ']').getD val1
  (splitOnCharR val2 ',').mapM (fun tok => unquote (trimList tok))

/-! ## `src/ds-identify/src/constants.rs` -/

/-- Constant `UNAVAILABLE`. -/
def UNAVAILABLE : List Char := "unavailable".toList

/-- Sentinel `format!("{}:container", UNAVAILABLE)`. -/
def unavailableContainer : List Char := UNAVAILABLE ++ ":container".toList

/-- Sentinel `format!("{}:error", UNAVAILABLE)`. -/
def unavailableError : List Char := UNAVAILABLE ++ ":error".toList

/-- Sentinel `format!("{}:no-cmdline", UNAVAILABLE)`. -/
def unavailableNoCmdline : List Char := UNAVAILABLE ++ ":no-cmdline".toList

/-- Constant `DI_DSLIST_DEFAULT`. -/
def DI_DSLIST_DEFAULT : List Char :=
  ("MAAS ConfigDrive NoCloud AltCloud Azure Bigstep CloudSigma CloudStack " ++
   "DigitalOcean Vultr AliYun Ec2 GCE OpenNebula OpenStack OVF SmartOS " ++
   "Scaleway Hetzner IBMCloud Oracle Exoscale RbxCloud UpCloud VMware " ++
   "LXD NWCS").toList

/-! ## `src/ds-identify/src/info.rs` (the newer crate)

`Virt::is_container`, `FSInfo::read_linux`, `FSInfo::has_fs_with_label`
and `Info::read_kernel_cmdline`. -/

/-- Model of `Virt::is_container`: lowercase the virt string and compare
against the closed set of container technologies.  (Rust `to_lowercase`
restricted to the ASCII vocabulary involved.) -/
def is_container (virt : List Char) : Bool :=
  let v := virt.map Char.toLower
  (["container-other", "lxc", "lxc-libvirt", "systemd-nspawn", "docker",
    "rkt", "jail"].map String.toList).contains v

/-- The three fields of `FSInfo` (Rust field `_fs_uuids`). -/
structure FSInfo where
  fs_labels : List Char
  iso9660_devs : List Char
  fs_uuids : Option (List Char)
deriving DecidableEq

/-- The mutable loop state of the `blkid` output parse in
`FSInfo::read_linux`: `labels`, `uuids`, `isodevs`, `ftype`, `dev`,
`label`. -/
structure BlkidState where
  labels : List Char
  uuids : List Char
  isodevs : List Char
  ftype : Option (List Char)
  dev : Option (List Char)
  label : Option (List Char)
deriving DecidableEq

/-- The `isodevs` flush that `read_linux` performs on a new `DEVNAME=`
group and once after the loop: only when a previous device is recorded
and its type is `iso9660`. -/
def flushIsodevs (st : BlkidState) : List Char :=
  match st.dev with
  | some dev_prev =>
    if st.ftype == some ("iso9660".toList) then
      st.isodevs ++ dev_prev ++ '=' :: (st.label.getD []) ++ [',']
    else st.isodevs
  | none => st.isodevs

/-- One iteration of the `for line in blkid_export_out.lines()` loop of
`FSInfo::read_linux`.  Note the source updates `dev` only inside
`if let Some(dev_prev) = dev`, so `dev` can never move away from `None`;
the model reproduces that. -/
def blkidStep (st : BlkidState) (line : List Char) : BlkidState :=
  match splitOnceStr line ("DEVNAME=".toList) with
  | some (_, value) =>
    match st.dev with
    | some _ =>
      { st with
        isodevs := flushIsodevs st
        ftype := none
        label := none
        dev := some value }
    | none => st
  | none =>
    if ("LABEL=".toList).isPrefixOf line || ("LABEL_FATBOOT=".toList).isPrefixOf line then
      match splitOnceStr line ("LABEL=".toList) with
      | some (_, value) => { st with labels := st.labels ++ value ++ [','] }
      | none =>
        match splitOnceStr line ("LABEL_FATBOOT=".toList) with
        | some (_, value) => { st with labels := st.labels ++ value ++ [','] }
        | none => st -- source aborts here; unreachable because the guard ensures a match
    else
      match splitOnceStr line ("TYPE=".toList) with
      | some (_, value) => { st with ftype := some value }
      | none =>
        match splitOnceStr line ("UUID=".toList) with
        | some (_, value) => { st with uuids := st.uuids ++ value ++ [','] }
        | none => st

/-- Model of `FSInfo::read_linux`.  `blkid_out` is the outcome of
`blkid -c /dev/null -o export`: `none` when `blkid` exited non-zero,
`some out` its stdout otherwise.  In a container the function returns
the sentinels before ever running `blkid`. -/
def read_linux (is_container_arg : Bool) (blkid_out : Option (List Char)) : FSInfo :=
  if is_container_arg then
    { fs_labels := unavailableContainer
      iso9660_devs := unavailableContainer
      fs_uuids := none }
  else
    match blkid_out with
    | none =>
      { fs_labels := unavailableError
        iso9660_devs := unavailableError
        fs_uuids := some unavailableError }
    | some out =>
      let st := (linesOf out).foldl blkidStep
        { labels := [], uuids := [], isodevs := [], ftype := none, dev := none, label := none }
      { fs_labels := st.labels
        fs_uuids := some st.uuids
        iso9660_devs := flushIsodevs st }

/-- Model of `FSInfo::has_fs_with_label`: for each candidate label the
source tests `self.fs_labels.contains(&format!(",{},", label))` — note
the pattern carries a leading comma but `fs_labels` is built without
one. -/
def has_fs_with_label (fsi : FSInfo) (labels : List (List Char)) : Bool :=
  labels.any (fun label => containsStr fsi.fs_labels (',' :: label ++ [',']))

/-- Model of `Info::read_kernel_cmdline` from `src/ds-identify/src/info.rs`:
in a container, read `proc_1_cmdline`, replace NULs by spaces, and
return the string itself when it `is_empty()`, the `unavailable:container`
sentinel otherwise.  Outside a container, return the `proc_cmdline`
contents when it is a readable file (`some`), the no-cmdline sentinel
otherwise. -/
def read_kernel_cmdline_dsid (is_container_arg : Bool)
    (proc_1_cmdline : List Char) (proc_cmdline_file : Option (List Char)) : List Char :=
  if is_container_arg then
    let cmdline := proc_1_cmdline.map (fun c => if c == '\x00' then ' ' else c)
    if cmdline.isEmpty then cmdline else unavailableContainer
  else
    match proc_cmdline_file with
    | some content => content
    | none => unavailableNoCmdline

/-- Model of `Info::read_kernel_cmdline` from
`src/tools/ds-identify/src/info.rs` (the older crate): same inputs, but
the container branch returns the NUL-replaced contents when
`cmdline.len() > 0` and the sentinel when it is empty. -/
def read_kernel_cmdline_tools (is_container_arg : Bool)
    (proc_1_cmdline : List Char) (proc_cmdline_file : Option (List Char)) : List Char :=
  if is_container_arg then
    let cmdline := proc_1_cmdline.map (fun c => if c == '\x00' then ' ' else c)
    if cmdline.length > 0 then cmdline else unavailableContainer
  else
    match proc_cmdline_file with
    | some content => content
    | none => unavailableNoCmdline

/-! ## `src/tools/ds-identify/src/paths.rs`

Rust `Path` values are modelled as their component lists; directory
facts (`is_dir`, `read_dir`) are explicit parameters. -/

/-- A filesystem path as its list of components. -/
abbrev RPath := List String

/-- Rust `Path::ends_with(child)`: `child` must match whole final
components of the path. -/
def pathEndsWith (p child : RPath) : Bool := child.isSuffixOf p

/-- Default location of `etc_ci_cfg` under root `/`
(`etc_cloud` joined with `PATH_ETC_CI_CFG`). -/
def etc_ci_cfg_default : RPath := ["etc", "cloud", "cloud.cfg"]

/-- Default location of `etc_ci_cfg_d` under root `/`
(`etc_cloud` joined with `format!("{}.d", PATH_ETC_CI_CFG)`). -/
def etc_ci_cfg_d_default : RPath := ["etc", "cloud", "cloud.cfg.d"]

/-- The directory facts `Paths::etc_ci_cfg_paths` consults: whether
`etc_ci_cfg` is a directory, whether `read_dir` on `etc_ci_cfg_d`
succeeds, and the entry names it yields in order. -/
structure EtcCfgDirState where
  etc_ci_cfg_is_dir : Bool
  etc_ci_cfg_d_readable : Bool
  etc_ci_cfg_d_entries : List String

/-- Model of `Paths::etc_ci_cfg_paths`: start from `[etc_ci_cfg]`; the
source gates the drop-in scan on `self.etc_ci_cfg.is_dir()` (the file,
not the `.d` directory) and keeps an entry only when the entry path
`ends_with(".cfg")` in the `Path` sense.  `none` models the abort of
`read_dir().unwrap()`. -/
def etc_ci_cfg_paths (etc_ci_cfg etc_ci_cfg_d : RPath) (st : EtcCfgDirState) :
    Option (List RPath) :=
  if st.etc_ci_cfg_is_dir then
    if st.etc_ci_cfg_d_readable then
      some (etc_ci_cfg ::
        ((st.etc_ci_cfg_d_entries.filter
            (fun name => pathEndsWith (etc_ci_cfg_d ++ [name]) [".cfg"])).map
          (fun name => etc_ci_cfg_d ++ [name])))
    else none
  else some [etc_ci_cfg]

/-! ## `src/tools/ds-identify/src/dss.rs` -/

/-- The `Datasource` variants of `dss.rs`. -/
inductive Datasource
  | dsnone
  | noCloud
  | lxd
  | unknown (name : List Char)
deriving DecidableEq

/-- The `DscheckResult` classification of a probe. -/
inductive DscheckResult
  | found (extra : Option (List Char))
  | notFound
  | maybe (extra : Option (List Char))
deriving DecidableEq

/-- Model of `impl From<&str> for Datasource`: lowercase and match
`nocloud` / `lxd`, everything else is `Unknown` carrying the original
name. -/
def datasource_from (val : List Char) : Datasource :=
  let lower := val.map Char.toLower
  if lower = "nocloud".toList then Datasource.noCloud
  else if lower = "lxd".toList then Datasource.lxd
  else Datasource.unknown val

/-- The facts of an `Info` snapshot that the modelled probes and the
NoCloud specification talk about.  `seed_nocloud_meta_data` and
`seed_nocloud_net_meta_data` record whether
`var_lib_cloud/seed/nocloud(-net)` exists with a `meta-data` file; the
source's `dscheck_no_cloud` never consults them (nor `fs_info`). -/
structure InfoSnap where
  virt : List Char
  kernel_cmdline : List Char
  product_serial : Option (List Char)
  fs_info : FSInfo
  seed_nocloud_meta_data : Bool
  seed_nocloud_net_meta_data : Bool

/-- Model of `util::check_seed_dir` of `dss.rs`: the directory
`var_lib_cloud/seed/<name>` must be a directory and contain every
required name as a regular file (default requirement `meta-data`).
The directory is given as its `is_dir` fact plus its regular-file
names. -/
def check_seed_dir (seed_is_dir : Bool) (seed_files : List (List Char))
    (required : Option (List (List Char))) : Bool :=
  if !seed_is_dir then false
  else (required.getD ["meta-data".toList]).all (fun f => seed_files.contains f)

/-- Model of `dscheck_no_cloud`: Found when the kernel command line
contains `ds=nocloud`, else Found when the SMBIOS product serial
contains `ds=nocloud`, else NotFound.  The source declares
`fs_label = "cidata CIDATA"` but never uses it, and ends in a
commented-out todo before `NotFound`. -/
def dscheck_no_cloud (info : InfoSnap) : DscheckResult :=
  if containsStr info.kernel_cmdline ("ds=nocloud".toList) then
    DscheckResult.found none
  else
    match info.product_serial with
    | some produc_serial =>
      if containsStr produc_serial ("ds=nocloud".toList) then
        DscheckResult.found none
      else DscheckResult.notFound
    | none => DscheckResult.notFound

/-! ## `src/tools/ds-identify/src/sources/list.rs` -/

/-- Model of the comment-stripping in `check_config`: the part of the
line before the first `#`, then trimmed. -/
def stripCommentAndTrim (line : List Char) : List Char :=
  trimList (match splitOnceChar line '#' with
            | some (before, _) => before
            | none => line)

/-- One line of `check_config`: a `key: value` line whose trimmed key
matches updates the running value (last match wins). -/
def check_config_line (key : List Char) (acc : Option (List Char))
    (line : List Char) : Option (List Char) :=
  let line := stripCommentAndTrim line
  match splitOnceChar line ':' with
  | some (k, v) => if trimList k = key then some (trimList v) else acc
  | none => acc

/-- Model of `check_config`: scan the files that exist (`some`) in
order, line by line; the last match across all files wins.  The source
also returns the path of the winning file, used only for a debug log;
the model keeps the value. -/
def check_config (key : List Char) (files : List (Option (List Char))) :
    Option (List Char) :=
  files.foldl
    (fun acc file =>
      match file with
      | some content => (linesOf content).foldl (check_config_line key) acc
      | none => acc)
    none

/-- The built-in default list: `DI_DSLIST_DEFAULT.split(' ')` mapped
through `Datasource::from`. -/
def dslist_default : List Datasource :=
  (splitOnCharR DI_DSLIST_DEFAULT ' ').map datasource_from

/-- Model of `DatasourceList::from(&str)`: whitespace-split and map each
name to its variant. -/
def dslist_from (value : List Char) : List Datasource :=
  (splitWhitespaceR value).map datasource_from

/-- Model of `DatasourceList::read`: `di_dsname` is the `DI_DSNAME`
environment variable, `cfg_files` the contents of the files from
`etc_ci_cfg_paths()` (`none` for a path that is not a file).  When
`DI_DSNAME` is set the function returns its whitespace-split before
looking at any file; otherwise the last `datasource_list` value found is
parsed as a YAML array, and the built-in default is the fallback.
`none` propagates a `parse_yaml_array` abort. -/
def datasource_list_read (di_dsname : Option (List Char))
    (cfg_files : List (Option (List Char))) : Option (List Datasource) :=
  match di_dsname with
  | some dsname => some (dslist_from dsname)
  | none =>
    match check_config ("datasource_list".toList) cfg_files with
    | some found_dslist =>
      (parse_yaml_array found_dslist).map (fun items => items.map datasource_from)
    | none => some dslist_default

/-! ## `src/tools/ds-identify/src/main.rs` -/

/-- The `Mode` enum. -/
inductive Mode
  | disabled
  | enabled
  | search
  | report
deriving DecidableEq

/-- The two output files the engine may write. -/
structure OutFiles where
  run_ci_cfg : Option (List Char)
  run_di_result : Option (List Char)
deriving DecidableEq

/-- The text `write_result` produces: under `Report` a `di_report:`
header and every content line indented two spaces, otherwise the lines
verbatim; `writeln!` terminates each line. -/
def render_result (content : List Char) (mode : Mode) : List Char :=
  let pre := match mode with
    | Mode.report => "  ".toList
    | _ => []
  let header := match mode with
    | Mode.report => "di_report:\n".toList
    | _ => []
  header ++ (linesOf content).foldr (fun line acc => pre ++ line ++ '\n' :: acc) []

/-- Model of `write_result`: overwrite `run_ci_cfg` with the rendered
content. -/
def write_result (content : List Char) (mode : Mode) (fs : OutFiles) : OutFiles :=
  { fs with run_ci_cfg := some (render_result content mode) }

/-- Model of the decision tail of `_main` (after fact collection and
logging, which touch no output file): `Disabled` exits 1 at once,
`Enabled` exits 0 at once; otherwise a configured dsname returns, and a
manual-clean marker writes a comment-only `run_ci_cfg`.  The first
component is `some code` for `process::exit(code)` and `none` when
`_main` returns normally. -/
def main_tail (mode : Mode) (dsname : Option (List Char)) (manual_clean : Bool)
    (fs : OutFiles) : Option Nat × OutFiles :=
  match mode with
  | Mode.disabled => (some 1, fs)
  | Mode.enabled => (some 0, fs)
  | _ =>
    match dsname with
    | some _ => (none, fs)
    | none =>
      if manual_clean then
        (none, write_result ("# manual_cache_clean.".toList) mode fs)
      else (none, fs)

/-! ## Helper lemmas about the string primitives -/

/-- The last character of `s ++ [b]` is `b`. -/
lemma endsWithChar_concat (s : List Char) (b c : Char) :
    endsWithChar (s ++ [b]) c = (b == c) := by
  simp [endsWithChar, List.getLast?_concat]

/-- Cons form of `endsWithChar_concat`. -/
lemma endsWithChar_cons_concat (a : Char) (s : List Char) (b c : Char) :
    endsWithChar (a :: (s ++ [b])) c = (b == c) := by
  show endsWithChar ((a :: s) ++ [b]) c = (b == c)
  rw [endsWithChar_concat]

/-- Stripping the leading character of a cons. -/
lemma stripPrefixChar_cons_self (a : Char) (s : List Char) :
    stripPrefixChar (a :: s) a = some s := by
  simp [stripPrefixChar, startsWithChar]

/-- Stripping the trailing character of a concat. -/
lemma stripSuffixChar_concat_self (s : List Char) (a : Char) :
    stripSuffixChar (s ++ [a]) a = some s := by
  simp [stripSuffixChar, endsWithChar_concat, List.dropLast_concat]

/-- Wrapping any string in a pair of tick or double quotes and unquoting
gives the string back. -/
lemma unquote_wrap (q : Char) (s : List Char) (hq : q = TICK ∨ q = QUOTE) :
    unquote (q :: (s ++ [q])) = some s := by
  have hqt : (QUOTE == TICK) = false := by decide
  rcases hq with h | h <;> subst h
  · simp [unquote, startsWithChar, endsWithChar_cons_concat,
      stripPrefixChar_cons_self, stripSuffixChar_concat_self]
  · simp [unquote, startsWithChar, hqt, endsWithChar_cons_concat,
      stripPrefixChar_cons_self, stripSuffixChar_concat_self]

/-- On a string that does not both start and end with the same quote
character, `unquote` is the identity. -/
lemma unquote_unwrapped (t : List Char)
    (h1 : (startsWithChar t TICK && endsWithChar t TICK) = false)
    (h2 : (startsWithChar t QUOTE && endsWithChar t QUOTE) = false) :
    unquote t = some t := by
  simp [unquote, h1, h2]

/-! ## Claims -/

/-- Claim C1 (refuted; evidence for the code bug).  With `blkid`
reporting a single device labelled `cidata`, `read_linux` builds
`fs_labels = "cidata,"`; the claimed specification (`",cidata,"` occurs
in `"," ++ fs_labels`) holds, yet `has_fs_with_label` returns `false`
because the source searches for `",cidata,"` inside `fs_labels` without
prepending the leading comma, so the first label of the concatenation is
never found. -/
theorem has_fs_with_label_misses_first_label :
    (read_linux false
        (some ("DEVNAME=/dev/sr0\nLABEL=cidata\nTYPE=iso9660".toList))).fs_labels =
      "cidata,".toList ∧
    has_fs_with_label
        (read_linux false
          (some ("DEVNAME=/dev/sr0\nLABEL=cidata\nTYPE=iso9660".toList)))
        ["cidata".toList] = false ∧
    containsStr
        (',' :: (read_linux false
          (some ("DEVNAME=/dev/sr0\nLABEL=cidata\nTYPE=iso9660".toList))).fs_labels)
        (',' :: ("cidata".toList ++ [','])) = true := by
  decide

/-- Claim C2 (refuted; evidence for the code bug).  A snapshot with a
`cidata` filesystem label (from the same `blkid` fixture) and a
populated `seed/nocloud` directory, but no `ds=nocloud` in the kernel
command line or SMBIOS serial, is classified NotFound by
`dscheck_no_cloud`: the label and seed-directory checks of the claim are
not implemented (the `fs_label` variable is unused and `check_seed_dir`
is never called, although it would return `true` here). -/
theorem dscheck_no_cloud_ignores_label_and_seed :
    dscheck_no_cloud
        { virt := "kvm".toList
          kernel_cmdline := "root=/dev/vda1 ro".toList
          product_serial := none
          fs_info := read_linux false
            (some ("DEVNAME=/dev/sr0\nLABEL=cidata\nTYPE=iso9660".toList))
          seed_nocloud_meta_data := true
          seed_nocloud_net_meta_data := false } = DscheckResult.notFound ∧
    (read_linux false
        (some ("DEVNAME=/dev/sr0\nLABEL=cidata\nTYPE=iso9660".toList))).fs_labels =
      "cidata,".toList ∧
    check_seed_dir true ["meta-data".toList] none = true := by
  decide

/-- Claim C3 (refuted; evidence for the code bug).  `parse_yaml_array`
strips `]` with `strip_prefix` instead of `strip_suffix`, so
`"[a, b, c]"` parses to `["a","b","c]"]` while the bracketless input
parses to `["a","b","c"]` — the two claimed equalities both fail on the
bracketed input. -/
theorem parse_yaml_array_keeps_closing_bracket :
    parse_yaml_array ("[a, b, c]".toList) =
      some ["a".toList, "b".toList, "c]".toList] ∧
    parse_yaml_array ("a, b, c".toList) =
      some ["a".toList, "b".toList, "c".toList] := by
  decide

/-- Claim C4 (refuted for `src/ds-identify/src/info.rs`; evidence for
the code bug).  In the container branch that crate returns the
`unavailable:container` sentinel when the NUL-replaced `proc_1_cmdline`
is non-empty and the empty string when it is empty — exactly the
inverse of the claim — while the sibling
`src/tools/ds-identify/src/info.rs` implements the claimed behaviour. -/
theorem read_kernel_cmdline_container_branch_inverted :
    read_kernel_cmdline_dsid true ("/sbin/init\x00".toList) none =
      unavailableContainer ∧
    read_kernel_cmdline_dsid true [] none = [] ∧
    read_kernel_cmdline_tools true ("/sbin/init\x00".toList) none =
      "/sbin/init ".toList ∧
    read_kernel_cmdline_tools true [] none = unavailableContainer := by
  decide

/-- Claim C5 (refuted; evidence for the code bug).  With `etc_ci_cfg` a
regular file and `etc_ci_cfg_d` a readable directory containing
`aa.cfg`, the source returns `[etc_ci_cfg]` only: the gate tests
`etc_ci_cfg.is_dir()` instead of `etc_ci_cfg_d`, and even under the gate
`Path::ends_with(".cfg")` compares whole components, so `aa.cfg` never
matches. -/
theorem etc_ci_cfg_paths_omits_cfg_dropins :
    etc_ci_cfg_paths etc_ci_cfg_default etc_ci_cfg_d_default
        { etc_ci_cfg_is_dir := false
          etc_ci_cfg_d_readable := true
          etc_ci_cfg_d_entries := ["aa.cfg"] } = some [etc_ci_cfg_default] ∧
    etc_ci_cfg_paths etc_ci_cfg_default etc_ci_cfg_d_default
        { etc_ci_cfg_is_dir := true
          etc_ci_cfg_d_readable := true
          etc_ci_cfg_d_entries := ["aa.cfg"] } = some [etc_ci_cfg_default] ∧
    pathEndsWith (etc_ci_cfg_d_default ++ ["aa.cfg"]) [".cfg"] = false := by
  decide

/-- Claim C6 (confirmed).  Whatever the configured dsname, the
manual-clean marker and the current output files, a run whose resolved
mode is `Disabled` exits with code 1 and a run whose resolved mode is
`Enabled` exits with code 0, in both cases leaving `run_ci_cfg` and
`run_di_result` exactly as they were. -/
theorem main_tail_disabled_enabled_exit_without_output
    (dsname : Option (List Char)) (manual_clean : Bool) (fs : OutFiles) :
    main_tail Mode.disabled dsname manual_clean fs = (some 1, fs) ∧
    main_tail Mode.enabled dsname manual_clean fs = (some 0, fs) :=
  ⟨rfl, rfl⟩

/-- Claim C7 (confirmed).  When `DI_DSNAME` is set, `DatasourceList::read`
returns exactly the whitespace-split of its value mapped through
`Datasource::from` (unknown names becoming `Unknown`), and the result is
the same for any two states of the configuration files — they are never
consulted. -/
theorem datasource_list_read_di_dsname_short_circuit
    (dsname : List Char) (cfg1 cfg2 : List (Option (List Char))) :
    datasource_list_read (some dsname) cfg1 =
      some ((splitWhitespaceR dsname).map datasource_from) ∧
    datasource_list_read (some dsname) cfg1 =
      datasource_list_read (some dsname) cfg2 :=
  ⟨rfl, rfl⟩

/-- Claim C8 (confirmed).  For every virt string classified as a
container, `read_linux` sets both `fs_labels` and `iso9660_devs` to the
`unavailable:container` sentinel, and its result does not depend on the
outcome of `blkid` — the container branch returns before `blkid` is
consulted. -/
theorem read_linux_container_sentinels (virt : List Char)
    (b1 b2 : Option (List Char)) (h : is_container virt = true) :
    (read_linux (is_container virt) b1).fs_labels =
      "unavailable:container".toList ∧
    (read_linux (is_container virt) b1).iso9660_devs =
      "unavailable:container".toList ∧
    read_linux (is_container virt) b1 = read_linux (is_container virt) b2 := by
  rw [h]
  exact ⟨rfl, rfl, rfl⟩

/-- Witness for C8 at the concrete container virt value `LXC`
(exercising the case-insensitive match), with two distinct `blkid`
outcomes. -/
theorem read_linux_container_sentinels_witness :
    is_container ("LXC".toList) = true ∧
    ((read_linux (is_container ("LXC".toList)) none).fs_labels =
        "unavailable:container".toList ∧
     (read_linux (is_container ("LXC".toList)) none).iso9660_devs =
        "unavailable:container".toList ∧
     read_linux (is_container ("LXC".toList)) none =
        read_linux (is_container ("LXC".toList)) (some [])) :=
  ⟨by decide,
   read_linux_container_sentinels ("LXC".toList) none (some []) (by decide)⟩

/-- Claim C9 (confirmed).  Wrapping a string in a pair of tick or double
quotes and unquoting gives the string back (stated, as in the claim,
for strings not containing the quote character), and `unquote` is the
identity on any string that is not wrapped in a matching pair of
quotes, i.e. does not both start and end with the same quote
character. -/
theorem unquote_round_trip_and_id (q : Char) (s t : List Char)
    (hq : q = TICK ∨ q = QUOTE) (_hs : q ∉ s)
    (h1 : (startsWithChar t TICK && endsWithChar t TICK) = false)
    (h2 : (startsWithChar t QUOTE && endsWithChar t QUOTE) = false) :
    unquote (q :: (s ++ [q])) = some s ∧ unquote t = some t :=
  ⟨unquote_wrap q s hq, unquote_unwrapped t h1 h2⟩

/-- Witness for C9: the tick quote around `ab`, and the unquoted string
`xy`. -/
theorem unquote_round_trip_and_id_witness :
    (TICK = TICK ∨ TICK = QUOTE) ∧ TICK ∉ ("ab".toList) ∧
    (startsWithChar ("xy".toList) TICK && endsWithChar ("xy".toList) TICK) = false ∧
    (startsWithChar ("xy".toList) QUOTE && endsWithChar ("xy".toList) QUOTE) = false ∧
    (unquote (TICK :: ("ab".toList ++ [TICK])) = some ("ab".toList) ∧
     unquote ("xy".toList) = some ("xy".toList)) :=
  ⟨Or.inl rfl, by decide, by decide, by decide,
   unquote_round_trip_and_id TICK ("ab".toList) ("xy".toList) (Or.inl rfl)
     (by decide) (by decide) (by decide)⟩

/-- Claim C10 (refuted; evidence for the code bug).  On the
one-character inputs consisting of a single quote character,
`starts_with` and `ends_with` both hold of the same character, the
prefix quote is stripped, and the `strip_suffix(..).unwrap()` on the
empty remainder aborts: `unquote` does not return a value (`none` in
the model). -/
theorem unquote_aborts_on_single_quote :
    unquote [TICK] = none ∧ unquote [QUOTE] = none := by
  decide
